import Mathlib

/-!
A shallow embedding of the CryoscopeInfluxDBMirror script (main.py) and proofs
about its behaviour: the single-instance guard at startup, the cycle-level
error isolation of the main loop, the widening-window watermark resolver, the
annotated-CSV row parser that builds Point records, value coercion via a model
of the Python float() parse, and the ping-target computation.
-/

namespace Mirror

/-- A CSV response row: the list of its string cells. -/
abbrev Row := List String

/-- Result of a successful Python float() parse: a finite rational, a signed
infinity, or nan. -/
inductive PyFloat where
  | finite (q : ℚ)
  | infinite (neg : Bool)
  | nan
deriving DecidableEq, Repr

/-- The value stored in a mirrored point: either the result of a successful
float() parse or the raw string when the parse raised ValueError. -/
inductive PyVal where
  | float (f : PyFloat)
  | str (s : String)
deriving DecidableEq, Repr

/-- One time-series point as assembled by the parsing loop of perform_mirror:
Point(measurement).field(fieldName, value).time(time) plus tag calls. -/
structure Point where
  measurement : String
  fieldName : String
  value : PyVal
  time : String
  tags : List (String × String)
deriving DecidableEq, Repr

/-- Observable side effects of the script, in the order they are performed. -/
inductive Eff where
  | printE (s : String)
  | logE (level msg : String)
  | queryLocal (q : String)
  | queryRemote (q : String)
  | writePoints (bucket org : String) (pts : List Point)
  | writeGuard (b : Bool)
  | pingE (host : String)
  | waitEff
deriving DecidableEq, Repr

/-- The settings.yaml fields that the mirroring logic reads. -/
structure Settings where
  remoteIp : String
  localOrg : String
  buckets : List String
  refreshRate : String
  recoverDataSinceDate : String

/-- The function-local index variables of perform_mirror that survive from one
bucket iteration to the next (value_idx, field_idx, measurement_idx are only
ever assigned inside the header branch, so they may be unbound). -/
structure PersistIdx where
  value_idx : Option Nat
  field_idx : Option Nat
  measurement_idx : Option Nat
deriving DecidableEq, Repr

/-- External capabilities consumed by the script: the ping probe, the local and
remote query APIs and the local write API.  The remote query and the write can
raise (network faults); raising is modelled by Except. -/
structure Caps where
  ping : String → Bool
  localQuery : String → List Row
  remoteQuery : String → Except String (List Row)
  writeLocal : String → List Point → Except String Unit

/-! ## Model of the Python float() parse (ASCII inputs) -/

/-- Whitespace characters stripped by float(). -/
def isPySpace (c : Char) : Bool :=
  c = ' ' || c = '\t' || c = '\n' || c = '\r' || c = '\x0b' || c = '\x0c'

/-- Strip leading and trailing whitespace. -/
def stripSpaces (cs : List Char) : List Char :=
  ((cs.dropWhile isPySpace).reverse.dropWhile isPySpace).reverse

/-- Tail of a digit run; the flag records that the previous character was an
underscore, in which case a digit must follow (underscores are legal only
between digits). -/
def digitsTailAux : Bool → List Char → Bool
  | afterUnd, [] => !afterUnd
  | true, d :: rest => d.isDigit && digitsTailAux false rest
  | false, c :: rest =>
    if c = '_' then digitsTailAux true rest else c.isDigit && digitsTailAux false rest

/-- A valid nonempty digit run, allowing single underscores between digits. -/
def digitsOk : List Char → Bool
  | [] => false
  | c :: rest => c.isDigit && digitsTailAux false rest

/-- Numeric value of a digit run (underscores skipped). -/
def natOfDigits (cs : List Char) : Nat :=
  cs.foldl (fun a c => if c = '_' then a else a * 10 + (c.toNat - 48)) 0

/-- Number of actual digits in a fraction run (underscores skipped). -/
def fracLen (cs : List Char) : Nat :=
  (cs.filter (fun c => c ≠ '_')).length

/-- Value of a fractional digit run. -/
def fracVal (fp : List Char) : ℚ :=
  (natOfDigits fp : ℚ) / (10 : ℚ) ^ fracLen fp

/-- Value of the mantissa, one of the forms I, I., I.F, .F. -/
def parseMantissa (cs : List Char) : Option ℚ :=
  let ip := cs.takeWhile (fun c => c ≠ '.')
  match cs.dropWhile (fun c => c ≠ '.') with
  | [] => if digitsOk ip then some (natOfDigits ip : ℚ) else none
  | _ :: fp =>
    if ip.isEmpty then
      if digitsOk fp then some (fracVal fp) else none
    else if fp.isEmpty then
      if digitsOk ip then some (natOfDigits ip : ℚ) else none
    else
      if digitsOk ip && digitsOk fp then
        some ((natOfDigits ip : ℚ) + fracVal fp)
      else none

/-- Exponent digits with an optional leading sign already consumed. -/
def parseExpDigits (neg : Bool) (cs : List Char) : Option ℤ :=
  if digitsOk cs then
    some (if neg then -(natOfDigits cs : ℤ) else (natOfDigits cs : ℤ))
  else none

/-- The exponent part of a float literal, starting at the letter e or E; an
absent exponent part means exponent 0. -/
def parseExpPart : List Char → Option ℤ
  | [] => some 0
  | _ :: rest =>
    match rest with
    | [] => none
    | c :: rest2 =>
      if c = '+' then parseExpDigits false rest2
      else if c = '-' then parseExpDigits true rest2
      else parseExpDigits false rest

/-- Ten to an integer power, as a rational. -/
def pow10 (e : ℤ) : ℚ :=
  if 0 ≤ e then (10 : ℚ) ^ e.toNat else 1 / (10 : ℚ) ^ (-e).toNat

/-- Body of the float() parse after the optional sign has been consumed. -/
def pyFloatBody (neg : Bool) (cs : List Char) : Option PyFloat :=
  let low := cs.map Char.toLower
  if low = "inf".data ∨ low = "infinity".data then some (PyFloat.infinite neg)
  else if low = "nan".data then some PyFloat.nan
  else
    let mant := cs.takeWhile (fun c => c ≠ 'e' ∧ c ≠ 'E')
    match parseMantissa mant, parseExpPart (cs.dropWhile (fun c => c ≠ 'e' ∧ c ≠ 'E')) with
    | some q, some e => some (PyFloat.finite ((if neg then -q else q) * pow10 e))
    | _, _ => none

/-- Model of Python float(s): some result on success, none when the call would
raise ValueError. -/
def pyFloat (s : String) : Option PyFloat :=
  match stripSpaces s.data with
  | [] => none
  | c :: rest =>
    if c = '+' then pyFloatBody false rest
    else if c = '-' then pyFloatBody true rest
    else pyFloatBody false (c :: rest)

/-- The value-typing rule of the parsing loop: try float(raw); on ValueError
keep the raw string. -/
def coerceValue (s : String) : PyVal :=
  match pyFloat s with
  | some f => PyVal.float f
  | none => PyVal.str s

/-! ## The tabular response parser of perform_mirror -/

/-- Parser state: the loop variables of the parsing section of perform_mirror. -/
structure PState where
  need_headers : Bool
  time_idx : Nat
  value_idx : Option Nat
  field_idx : Option Nat
  measurement_idx : Option Nat
  custom_tags : List (String × Nat)
  points : List Point
deriving DecidableEq, Repr

/-- A row holding one of the csv annotation markers. -/
def markerRow (r : Row) : Prop :=
  "#datatype" ∈ r ∨ "#group" ∈ r ∨ "#default" ∈ r

instance (r : Row) : Decidable (markerRow r) := by
  unfold markerRow; infer_instance

/-- Cell access, raising IndexError out of range, like resp[i]. -/
def getCell (r : Row) (i : Nat) : Except String String :=
  match r[i]? with
  | some c => Except.ok c
  | none => Except.error "IndexError"

/-- Reading a possibly-unbound local variable, raising NameError when it was
never assigned. -/
def getIdx : Option Nat → Except String Nat
  | some i => Except.ok i
  | none => Except.error "NameError"

/-- The tag cells of a data row, looked up at the recorded tag indices in
insertion order. -/
def tagCells (r : Row) : List (String × Nat) → Except String (List (String × String))
  | [] => Except.ok []
  | kv :: rest =>
    match getCell r kv.2 with
    | Except.error e => Except.error e
    | Except.ok c =>
      match tagCells r rest with
      | Except.error e => Except.error e
      | Except.ok cs => Except.ok ((kv.1, c) :: cs)

/-- Build one Point from a data row, in the evaluation order of the source:
the value cell (inside the try block), then measurement, field, time, and the
tags.  Index and name faults propagate as errors. -/
def buildPoint (st : PState) (r : Row) : Except String Point :=
  match getIdx st.value_idx with
  | Except.error e => Except.error e
  | Except.ok vi =>
    match getCell r vi with
    | Except.error e => Except.error e
    | Except.ok raw =>
      match getIdx st.measurement_idx with
      | Except.error e => Except.error e
      | Except.ok mi =>
        match getCell r mi with
        | Except.error e => Except.error e
        | Except.ok meas =>
          match getIdx st.field_idx with
          | Except.error e => Except.error e
          | Except.ok fi =>
            match getCell r fi with
            | Except.error e => Except.error e
            | Except.ok fld =>
              match getCell r st.time_idx with
              | Except.error e => Except.error e
              | Except.ok tim =>
                match tagCells r st.custom_tags with
                | Except.error e => Except.error e
                | Except.ok tags =>
                  Except.ok ⟨meas, fld, coerceValue raw, tim, tags⟩

/-- Dictionary update for the tag index map: replace an existing key in place,
otherwise append at the end (Python dict insertion semantics). -/
def tagUpdate : List (String × Nat) → String → Nat → List (String × Nat)
  | [], k, v => [(k, v)]
  | kv :: rest, k, v =>
    if kv.1 = k then (k, v) :: rest else kv :: tagUpdate rest k v

/-- The enumerate loop of the header branch: record the index of each
well-known column and one tag index per other column name. -/
def applyHeaderAux : PState → List (Nat × String) → PState
  | st, [] => st
  | st, (i, h) :: rest =>
    applyHeaderAux
      (if h = "_time" then { st with time_idx := i }
       else if h = "_value" then { st with value_idx := some i }
       else if h = "_field" then { st with field_idx := some i }
       else if h = "_measurement" then { st with measurement_idx := some i }
       else { st with custom_tags := tagUpdate st.custom_tags h i }) rest

/-- The header branch: clear need_headers, reset the tag map, and record the
column indices. -/
def applyHeader (st : PState) (r : Row) : PState :=
  applyHeaderAux { st with need_headers := false, custom_tags := [] } r.enum

/-- One iteration of the parsing loop, classifying a row in the order of the
source: annotation rows, repeated result headers, the header row, data rows,
and (silently) pre-header rows without a _value cell. -/
def parseStep (st : PState) (r : Row) : Except String PState :=
  if markerRow r then Except.ok st
  else if st.need_headers = false ∧ "result" ∈ r then Except.ok st
  else if st.need_headers = true ∧ "_value" ∈ r then Except.ok (applyHeader st r)
  else if st.need_headers = false then
    match buildPoint st r with
    | Except.error e => Except.error e
    | Except.ok p => Except.ok { st with points := st.points ++ [p] }
  else Except.ok st

/-- The whole parsing loop over the streamed rows, stopping at the first
propagated error. -/
def parseRows (st : PState) : List Row → Except String PState
  | [] => Except.ok st
  | r :: rest =>
    match parseStep st r with
    | Except.error e => Except.error e
    | Except.ok st2 => parseRows st2 rest

/-- Parser state at the start of a bucket: need_headers and the accumulators
are reset; time_idx comes from the watermark phase and the other index
variables persist from the previous bucket. -/
def initPState (tIdx : Nat) (p : PersistIdx) : PState :=
  ⟨true, tIdx, p.value_idx, p.field_idx, p.measurement_idx, [], []⟩

/-! ## The watermark resolver of perform_mirror -/

/-- First index of a cell equal to the literal column name of the timestamp,
as found by the enumerate loop of the watermark phase. -/
def findTimeIdx : Row → Option Nat
  | [] => none
  | c :: rest => if c = "_time" then some 0 else (findTimeIdx rest).map (· + 1)

/-- The inner row loop of the watermark phase for one window.  Before the
header is seen (got_data false) each row is scanned for the timestamp column
name; once got_data is set, the next row is indexed at the recorded time index
(raising IndexError when too short) and the loop breaks. -/
def scanRowsWm : List Row → Bool → Nat → Option String →
    Except String (Bool × Nat × Option String)
  | [], g, ti, ts => Except.ok (g, ti, ts)
  | r :: rest, g, ti, ts =>
    if g then
      match r[ti]? with
      | some c => Except.ok (g, ti, some c)
      | none => Except.error "IndexError"
    else
      match findTimeIdx r with
      | some i => scanRowsWm rest true i ts
      | none => scanRowsWm rest false ti ts

/-- The seven widening lookback windows, in flux notation and in source
order. -/
def fluxTimes : List String :=
  ["-1m", "-1h", "-6h", "-12h", "-1d", "-7d", "-14d"]

/-- The flux query issued against the local database for one window. -/
def wmQuery (bucket ft : String) : String :=
  "from(bucket:\"" ++ bucket ++ "\") |> range(start: " ++ ft ++
    ")  |> sort(columns: [\"_time\"]) |> last()"

/-- The window loop of the watermark phase: query each window in turn, scan
its rows, and break as soon as got_data is set.  Returns the query effects and
either the propagated error or the final (time_idx, time_stamp) pair. -/
def resolveLoop (q : String → List Row) (b : String) :
    List String → Bool → Nat → Option String →
    List Eff × Except String (Nat × Option String)
  | [], _, ti, ts => ([], Except.ok (ti, ts))
  | ft :: fts, g, ti, ts =>
    let rows := q (wmQuery b ft)
    match scanRowsWm rows g ti ts with
    | Except.error e => ([Eff.queryLocal (wmQuery b ft)], Except.error e)
    | Except.ok (g2, ti2, ts2) =>
      if g2 then ([Eff.queryLocal (wmQuery b ft)], Except.ok (ti2, ts2))
      else
        let res := resolveLoop q b fts g2 ti2 ts2
        (Eff.queryLocal (wmQuery b ft) :: res.1, res.2)

/-- The watermark phase for one bucket, started with got_data false,
time_idx 0 and time_stamp unset, exactly as in the source. -/
def resolveWatermark (q : String → List Row) (b : String) :
    List Eff × Except String (Nat × Option String) :=
  resolveLoop q b fluxTimes false 0 none

/-- The recovery fallback: Python truthiness makes both an unset and an empty
time_stamp fall back to the configured recovery date. -/
def fallback : Option String → String → String
  | none, recov => recov
  | some s, recov => if s = "" then recov else s

/-- The resolved since-instant for a bucket: the watermark phase followed by
the recovery fallback. -/
def resolveSince (q : String → List Row) (b : String) (recov : String) :
    List Eff × Except String String :=
  let res := resolveWatermark q b
  (res.1, res.2.map (fun p => fallback p.2 recov))

/-! ## Ping target, bucket sync and the main loop -/

/-- First index of a colon, the model of str.find which is used by the ping
code; none corresponds to Python find returning -1. -/
def colonIdx : List Char → Option Nat
  | [] => none
  | c :: rest => if c = ':' then some 0 else (colonIdx rest).map (· + 1)

/-- The string pinged by perform_mirror: remote_ip sliced up to the result of
find.  When find returns -1 the slice remote_ip[:-1] drops the final
character. -/
def pingTarget (s : String) : String :=
  match colonIdx s.data with
  | some i => String.mk (s.data.take i)
  | none => String.mk (s.data.take (s.data.length - 1))

/-- The flux query issued against the remote database for one bucket. -/
def remoteQueryStr (bucket ts : String) : String :=
  "from(bucket:\"" ++ bucket ++ "\") |> range(start: " ++ ts ++ ")"

/-- One bucket iteration of perform_mirror: log and print the start banner,
resolve the watermark, apply the recovery fallback, query the remote database,
parse the rows, write the batch and log completion.  Any raised error aborts
the iteration with the effects performed so far. -/
def syncBucket (caps : Caps) (stg : Settings) (p : PersistIdx) (b : String) :
    List Eff × Except String PersistIdx :=
  let e0 := [Eff.logE "DEBUG" ("Starting mirror of bucket: " ++ b),
             Eff.printE ("=============== " ++ b ++ "   ================")]
  let res := resolveWatermark caps.localQuery b
  match res.2 with
  | Except.error e => (e0 ++ res.1, Except.error e)
  | Except.ok (tIdx, tsOpt) =>
    let ts := fallback tsOpt stg.recoverDataSinceDate
    let e1 := res.1 ++ [Eff.printE ("Querying from:  " ++ ts),
                        Eff.queryRemote (remoteQueryStr b ts)]
    match caps.remoteQuery (remoteQueryStr b ts) with
    | Except.error e => (e0 ++ e1, Except.error e)
    | Except.ok rows =>
      match parseRows (initPState tIdx p) rows with
      | Except.error e => (e0 ++ e1, Except.error e)
      | Except.ok pst =>
        let pts := pst.points
        let e2 := e1 ++
          [Eff.printE ("Mirroring  " ++ toString pts.length ++ "  data points"),
           Eff.writePoints b stg.localOrg pts]
        match caps.writeLocal b pts with
        | Except.error e => (e0 ++ e2, Except.error e)
        | Except.ok _ =>
          (e0 ++ e2 ++
            [Eff.logE "DEBUG" ("Finished mirroring " ++ toString pts.length ++
              " data points in the bucket: " ++ b)],
           Except.ok ⟨pst.value_idx, pst.field_idx, pst.measurement_idx⟩)

/-- The bucket loop of perform_mirror: buckets are synced sequentially in list
order and a raised error aborts the remaining buckets. -/
def syncBuckets (caps : Caps) (stg : Settings) :
    List String → PersistIdx → List Eff × Except String Unit
  | [], _ => ([], Except.ok ())
  | b :: bs, p =>
    let res := syncBucket caps stg p b
    match res.2 with
    | Except.error e => (res.1, Except.error e)
    | Except.ok p2 =>
      let res2 := syncBuckets caps stg bs p2
      (res.1 ++ res2.1, res2.2)

/-- perform_mirror: ping the port-stripped remote address; on failure log and
return, otherwise sync every configured bucket. -/
def performMirror (caps : Caps) (stg : Settings) : List Eff × Except String Unit :=
  let target := pingTarget stg.remoteIp
  if caps.ping target then
    let res := syncBuckets caps stg stg.buckets ⟨none, none, none⟩
    ([Eff.pingE target,
      Eff.logE "DEBUG" "Successfully pinged the remote database."] ++ res.1,
     res.2)
  else
    ([Eff.pingE target,
      Eff.logE "DEBUG" "Unable to ping the remote database."],
     Except.ok ())

/-! ## Startup guard and the main loop -/

/-- Whether the guarded startup proceeded into the steady state or refused to
start. -/
inductive StartupResult where
  | refused
  | proceeded
deriving DecidableEq, Repr

/-- The operator guidance printed when the guard flag is already set. -/
def guidanceMessage : String :=
  "This program is already running on this device, or exited due to an error. " ++
  "It can be forceably started regardless of other instances with: python3 main.py forceOn"

/-- The startup sequence of main: an optional forced reset of the persisted
guard flag, the guard read, and either the refusal (print and return) or the
transition of the guard to true followed by the startup log.  Returns the
effects performed before the steady-state loop, the final guard value, and the
outcome. -/
def mainStartup (forceArg : Option String) (guard0 : Bool) :
    List Eff × Bool × StartupResult :=
  let e0 := if forceArg = some "forceOn" then [Eff.writeGuard false] else []
  let g1 := if forceArg = some "forceOn" then false else guard0
  if g1 then (e0 ++ [Eff.printE guidanceMessage], g1, StartupResult.refused)
  else (e0 ++ [Eff.writeGuard true, Eff.logE "DEBUG" "Started mirror service."],
        true, StartupResult.proceeded)

/-- How one iteration of the try block of main_loop ended: normally, with a
KeyboardInterrupt, or with some other exception carrying its description. -/
inductive CycleOutcome where
  | ok
  | keyboard
  | err (e : String)
deriving DecidableEq, Repr

/-- The effects of the wait function: the console notice, the log entry, and
the polled sleep until the refresh deadline. -/
def waitEffs (stg : Settings) : List Eff :=
  [Eff.printE ("Waiting for  " ++ stg.refreshRate ++ "  before trying to mirror."),
   Eff.logE "DEBUG" ("Waiting for " ++ stg.refreshRate ++ " before trying to mirror."),
   Eff.waitEff]

/-- The except clauses of main_loop: a KeyboardInterrupt clears the guard,
logs and returns; any other exception prints the traceback, logs it at ERROR
level, waits, and lets the loop continue.  The Bool is whether the loop
continues to another cycle. -/
def mainLoopReact (stg : Settings) : CycleOutcome → List Eff × Bool
  | CycleOutcome.ok => ([], true)
  | CycleOutcome.keyboard =>
    ([Eff.writeGuard false,
      Eff.logE "DEBUG" "Mirror service shutdown manually.",
      Eff.printE "Mirror service shutdown."], false)
  | CycleOutcome.err e =>
    ([Eff.printE e, Eff.logE "ERROR" ("Python error occured: " ++ e)] ++
       waitEffs stg, true)

/-- The while-true loop of main_loop, driven by the outcomes of successive
cycle bodies.  The Bool records whether a KeyboardInterrupt made the loop
return within the given cycles. -/
def mainLoopRun (stg : Settings) : List CycleOutcome → List Eff × Bool
  | [] => ([], false)
  | o :: os =>
    let r := mainLoopReact stg o
    if r.2 then
      let r2 := mainLoopRun stg os
      (r.1 ++ r2.1, r2.2)
    else (r.1, true)

/-! ## Helper lemmas about the watermark search -/

/-- Rows without the timestamp column name leave the scan state untouched. -/
theorem scanRowsWm_noTime (rows : List Row) (ti : Nat) (ts : Option String)
    (h : ∀ r ∈ rows, findTimeIdx r = none) :
    scanRowsWm rows false ti ts = Except.ok (false, ti, ts) := by
  induction rows with
  | nil => rfl
  | cons r rest ih =>
    have hr : findTimeIdx r = none := h r (List.mem_cons_self _ _)
    simp only [scanRowsWm, Bool.false_eq_true, if_false, hr]
    exact ih (fun r2 h2 => h r2 (List.mem_cons_of_mem _ h2))

/-- A window whose rows carry no timestamp column is treated as empty and the
search moves on to the next window. -/
theorem resolveLoop_skip (q : String → List Row) (b ft : String)
    (fts : List String) (ti : Nat) (ts : Option String)
    (h : ∀ r ∈ q (wmQuery b ft), findTimeIdx r = none) :
    resolveLoop q b (ft :: fts) false ti ts =
      (Eff.queryLocal (wmQuery b ft) :: (resolveLoop q b fts false ti ts).1,
       (resolveLoop q b fts false ti ts).2) := by
  simp [resolveLoop, scanRowsWm_noTime _ _ _ h]

/-- A prefix of windows whose rows carry no timestamp column contributes its
queries and nothing else. -/
theorem resolveLoop_skipAll (q : String → List Row) (b : String)
    (pre fts : List String) (ti : Nat) (ts : Option String)
    (h : ∀ f ∈ pre, ∀ r ∈ q (wmQuery b f), findTimeIdx r = none) :
    resolveLoop q b (pre ++ fts) false ti ts =
      (pre.map (fun f => Eff.queryLocal (wmQuery b f)) ++
         (resolveLoop q b fts false ti ts).1,
       (resolveLoop q b fts false ti ts).2) := by
  induction pre with
  | nil => simp
  | cons a pre2 ih =>
    rw [List.cons_append, resolveLoop_skip q b a (pre2 ++ fts) ti ts
      (h a (List.mem_cons_self _ _))]
    rw [ih (fun f hf r hrr => h f (List.mem_cons_of_mem _ hf) r hrr)]
    simp

/-- A window answering with the timestamp header followed by a data row stops
the search and yields that row's cell at the recorded index. -/
theorem resolveLoop_capture (q : String → List Row) (b ft : String)
    (fts : List String) (ti : Nat) (ts : Option String) (hr dr : Row) (i : Nat)
    (T : String) (hq : q (wmQuery b ft) = [hr, dr])
    (hi : findTimeIdx hr = some i) (hT : dr[i]? = some T) :
    resolveLoop q b (ft :: fts) false ti ts =
      ([Eff.queryLocal (wmQuery b ft)], Except.ok (i, some T)) := by
  simp [resolveLoop, hq, scanRowsWm, hi, hT]

/-- A window answering with the timestamp header and nothing after it stops
the search with the time stamp still unset. -/
theorem resolveLoop_headerOnly (q : String → List Row) (b ft : String)
    (fts : List String) (ti : Nat) (ts : Option String) (hr : Row) (i : Nat)
    (hq : q (wmQuery b ft) = [hr]) (hi : findTimeIdx hr = some i) :
    resolveLoop q b (ft :: fts) false ti ts =
      ([Eff.queryLocal (wmQuery b ft)], Except.ok (i, ts)) := by
  simp [resolveLoop, hq, scanRowsWm, hi]

/-! ## Claim C1 -/

/-- C1: if the persisted guard flag reads true at startup and no force-reset
argument was given, main prints the operator guidance and returns at once;
the only effect is that print — no query, no data write, no log write — and
the guard flag is left unchanged. -/
theorem c1_guard_refusal (forceArg : Option String) (guard0 : Bool)
    (hf : forceArg ≠ some "forceOn") (hg : guard0 = true) :
    mainStartup forceArg guard0 =
      ([Eff.printE guidanceMessage], guard0, StartupResult.refused) ∧
    ∀ e ∈ (mainStartup forceArg guard0).1, e = Eff.printE guidanceMessage := by
  subst hg
  constructor
  · simp [mainStartup, hf]
  · intro e he
    simp [mainStartup, hf] at he
    exact he

/-- Witness for C1 at a concrete input. -/
theorem c1_guard_refusal_witness :
    mainStartup none true =
      ([Eff.printE guidanceMessage], true, StartupResult.refused) :=
  (c1_guard_refusal none true (by simp) rfl).1

/-! ## Claim C3 -/

/-- C3: the watermark search tries the seven lookback windows in source order
and stops at the first window whose response carries the timestamp column,
extracting the timestamp from the row after the header and returning it
without querying any wider window; when that row holds the latest local
timestamp T, the resolved watermark is exactly T. -/
theorem c3_watermark_first_window (q : String → List Row) (b recov T : String)
    (pre rest : List String) (ft : String) (hr dr : Row) (i : Nat)
    (hsplit : fluxTimes = pre ++ ft :: rest)
    (hpre : ∀ f ∈ pre, ∀ r ∈ q (wmQuery b f), findTimeIdx r = none)
    (hq : q (wmQuery b ft) = [hr, dr])
    (hi : findTimeIdx hr = some i)
    (hT : dr[i]? = some T) (hTne : T ≠ "") :
    fluxTimes = ["-1m", "-1h", "-6h", "-12h", "-1d", "-7d", "-14d"] ∧
    resolveSince q b recov =
      ((pre ++ [ft]).map (fun f => Eff.queryLocal (wmQuery b f)),
       Except.ok T) := by
  refine ⟨rfl, ?_⟩
  have h1 := resolveLoop_skipAll q b pre (ft :: rest) 0 none hpre
  have h2 := resolveLoop_capture q b ft rest 0 none hr dr i T hq hi hT
  unfold resolveSince resolveWatermark
  rw [hsplit, h1, h2]
  simp [fallback, Except.map, hTne]

/-- Local query responses for the C3 witness: the second window holds the
header row and the latest local sample. -/
def c3Q : String → List Row := fun s =>
  if s = wmQuery "B" "-1h" then [["_time"], ["2024-05-01T00:00:00Z"]] else []

/-- Witness for C3 at a concrete input. -/
theorem c3_watermark_witness :
    resolveSince c3Q "B" "2020-01-01T00:00:00Z" =
      ([Eff.queryLocal (wmQuery "B" "-1m"), Eff.queryLocal (wmQuery "B" "-1h")],
       Except.ok "2024-05-01T00:00:00Z") := by
  have h := (c3_watermark_first_window c3Q "B" "2020-01-01T00:00:00Z"
    "2024-05-01T00:00:00Z" ["-1m"] ["-6h", "-12h", "-1d", "-7d", "-14d"] "-1h"
    ["_time"] ["2024-05-01T00:00:00Z"] 0 rfl (by decide) (by decide) rfl rfl
    (by decide)).2
  simpa using h

/-! ## Claim C4 -/

/-- C4: when every lookback window returns zero rows, all seven windows are
queried and the resolved watermark is the configured recovery-since instant
from the settings. -/
theorem c4_empty_bucket_fallback (q : String → List Row) (b recov : String)
    (h : ∀ f ∈ fluxTimes, q (wmQuery b f) = []) :
    resolveSince q b recov =
      (fluxTimes.map (fun f => Eff.queryLocal (wmQuery b f)),
       Except.ok recov) := by
  have h1 := resolveLoop_skipAll q b fluxTimes [] 0 none
    (fun f hf r hrr => absurd hrr (by rw [h f hf]; simp))
  rw [List.append_nil] at h1
  unfold resolveSince resolveWatermark
  rw [h1]
  simp [resolveLoop, fallback, Except.map]

/-- Witness for C4 at a concrete input. -/
theorem c4_empty_bucket_witness :
    resolveSince (fun _ => []) "B" "2020-01-01T00:00:00Z" =
      (fluxTimes.map (fun f => Eff.queryLocal (wmQuery "B" f)),
       Except.ok "2020-01-01T00:00:00Z") :=
  c4_empty_bucket_fallback (fun _ => []) "B" "2020-01-01T00:00:00Z"
    (fun _ _ => rfl)

/-! ## Claim C8 -/

/-- Local query responses for the C8 counterexample: the first window returns
the timestamp header followed by an empty, malformed row. -/
def c8Q : String → List Row := fun s =>
  if s = wmQuery "B" "-1m" then [["_time"], []] else []

/-- C8 counterexample: a malformed (too short) response row arriving after the
timestamp header crashes the watermark search with an IndexError instead of
being treated as a window without data, so the claim is false as stated. -/
theorem c8_malformed_row_crash :
    (resolveSince c8Q "B" "2020-01-01T00:00:00Z").2 =
      Except.error "IndexError" := rfl

/-- C8 amended: a response row containing no timestamp column name never
crashes the resolver; such rows leave the search state unchanged, so the
window is treated as holding no data and the search proceeds to the next
wider window.  Once the header has been seen, however, a following row that is
shorter than the recorded index raises an IndexError that propagates. -/
theorem c8_headerless_rows_safe (q : String → List Row) (b ft : String)
    (fts : List String) (ti : Nat) (ts : Option String)
    (h : ∀ r ∈ q (wmQuery b ft), findTimeIdx r = none) :
    resolveLoop q b (ft :: fts) false ti ts =
      (Eff.queryLocal (wmQuery b ft) :: (resolveLoop q b fts false ti ts).1,
       (resolveLoop q b fts false ti ts).2) :=
  resolveLoop_skip q b ft fts ti ts h

/-- Local query responses for the C8 witness: every window returns one junk
row without a timestamp column. -/
def c8SafeQ : String → List Row := fun _ => [["junk", "x"]]

/-- Witness for the amended C8 at a concrete input. -/
theorem c8_headerless_witness :
    resolveLoop c8SafeQ "B" ("-1m" :: ["-1h"]) false 0 none =
      (Eff.queryLocal (wmQuery "B" "-1m") ::
         (resolveLoop c8SafeQ "B" ["-1h"] false 0 none).1,
       (resolveLoop c8SafeQ "B" ["-1h"] false 0 none).2) :=
  c8_headerless_rows_safe c8SafeQ "B" "-1m" ["-1h"] 0 none (by decide)

/-! ## Claim C10 -/

/-- C10: when a window's response holds a row with the timestamp column but no
subsequent data row, the search stops widening at that window — no wider
window is queried — and the watermark resolves to the configured
recovery-since instant, because the time stamp is still unset while got_data
is already true. -/
theorem c10_header_only_stops (q : String → List Row) (b recov : String)
    (pre rest : List String) (ft : String) (hr : Row) (i : Nat)
    (hsplit : fluxTimes = pre ++ ft :: rest)
    (hpre : ∀ f ∈ pre, ∀ r ∈ q (wmQuery b f), findTimeIdx r = none)
    (hq : q (wmQuery b ft) = [hr])
    (hi : findTimeIdx hr = some i) :
    resolveSince q b recov =
      ((pre ++ [ft]).map (fun f => Eff.queryLocal (wmQuery b f)),
       Except.ok recov) := by
  have h1 := resolveLoop_skipAll q b pre (ft :: rest) 0 none hpre
  have h2 := resolveLoop_headerOnly q b ft rest 0 none hr i hq hi
  unfold resolveSince resolveWatermark
  rw [hsplit, h1, h2]
  simp [fallback, Except.map]

/-- Local query responses for the C10 witness: the narrowest window returns
only the header row while wider windows do hold data, which the search never
sees. -/
def c10Q : String → List Row := fun s =>
  if s = wmQuery "B" "-1m" then [["_time"]]
  else [["_time"], ["2024-05-01T00:00:00Z"]]

/-- Witness for C10 at a concrete input. -/
theorem c10_header_only_witness :
    resolveSince c10Q "B" "2020-01-01T00:00:00Z" =
      ([Eff.queryLocal (wmQuery "B" "-1m")],
       Except.ok "2020-01-01T00:00:00Z") := by
  have h := c10_header_only_stops c10Q "B" "2020-01-01T00:00:00Z" []
    ["-1h", "-6h", "-12h", "-1d", "-7d", "-14d"] "-1m" ["_time"] 0 rfl
    (by simp) (by decide) rfl
  simpa using h

/-! ## Helper lemmas about the row parser -/

/-- An annotation row is skipped. -/
theorem parseStep_marker (st : PState) (r : Row) (h : markerRow r) :
    parseStep st r = Except.ok st := by
  simp [parseStep, h]

/-- After the header, a row carrying the result marker is skipped. -/
theorem parseStep_result_skip (st : PState) (r : Row)
    (h1 : st.need_headers = false) (h2 : "result" ∈ r) :
    parseStep st r = Except.ok st := by
  by_cases hm : markerRow r
  · simp [parseStep, hm]
  · simp [parseStep, hm, h1, h2]

/-- Before the header, the first non-annotation row with a _value cell becomes
the header. -/
theorem parseStep_header (st : PState) (r : Row)
    (h1 : st.need_headers = true) (hm : ¬markerRow r) (h2 : "_value" ∈ r) :
    parseStep st r = Except.ok (applyHeader st r) := by
  simp [parseStep, hm, h1, h2]

/-- After the header, any remaining row is a data row and builds one point. -/
theorem parseStep_data (st : PState) (r : Row)
    (h1 : st.need_headers = false) (hm : ¬markerRow r) (h2 : "result" ∉ r) :
    parseStep st r =
      match buildPoint st r with
      | Except.error e => Except.error e
      | Except.ok p => Except.ok { st with points := st.points ++ [p] } := by
  simp [parseStep, hm, h1, h2]

/-- Successful steps of the parsing loop chain state to state. -/
theorem parseRows_cons_ok (st st2 : PState) (r : Row) (rest : List Row)
    (h : parseStep st r = Except.ok st2) :
    parseRows st (r :: rest) = parseRows st2 rest := by
  simp [parseRows, h]

/-- Every effect emitted by the watermark window loop is a local query. -/
theorem resolveLoop_effects (q : String → List Row) (b : String) :
    ∀ (fts : List String) (g : Bool) (ti : Nat) (ts : Option String),
      ∀ e ∈ (resolveLoop q b fts g ti ts).1, ∃ s, e = Eff.queryLocal s := by
  intro fts
  induction fts with
  | nil => intro g ti ts e he; simp [resolveLoop] at he
  | cons a fts2 ih =>
    intro g ti ts e he
    simp only [resolveLoop] at he
    cases hsc : scanRowsWm (q (wmQuery b a)) g ti ts with
    | error er =>
      rw [hsc] at he
      simp at he
      exact ⟨_, he⟩
    | ok trip =>
      obtain ⟨g2, ti2, ts2⟩ := trip
      rw [hsc] at he
      cases g2 with
      | true =>
        simp at he
        exact ⟨_, he⟩
      | false =>
        simp at he
        rcases he with he | he
        · exact ⟨_, he⟩
        · exact ih false ti2 ts2 e he

/-! ## Claim C5 -/

/-- C5: the parser classifies rows in stream order — the annotation row is
skipped, the first remaining row with a _value cell becomes the header and
records the well-known column indices plus one tag index for the host column,
the repeated result-bearing header row is skipped, and each of the two data
rows yields exactly one Point built from the recorded indices, in source
order, with the host tag taken from its own row. -/
theorem c5_parser_classification (tIdx0 : Nat) (p0 : PersistIdx)
    (annotRow rpt : Row) (t1 v1 f1 m1 h1 t2 v2 f2 m2 h2 : String)
    (hannot : "#datatype" ∈ annotRow)
    (hrpt : "result" ∈ rpt)
    (hd1m : ¬markerRow [t1, v1, f1, m1, h1])
    (hd1r : "result" ∉ [t1, v1, f1, m1, h1])
    (hd2m : ¬markerRow [t2, v2, f2, m2, h2])
    (hd2r : "result" ∉ [t2, v2, f2, m2, h2]) :
    parseRows (initPState tIdx0 p0)
      [annotRow, ["_time", "_value", "_field", "_measurement", "host"], rpt,
       [t1, v1, f1, m1, h1], [t2, v2, f2, m2, h2]] =
      Except.ok ⟨false, 0, some 1, some 2, some 3, [("host", 4)],
        [⟨m1, f1, coerceValue v1, t1, [("host", h1)]⟩,
         ⟨m2, f2, coerceValue v2, t2, [("host", h2)]⟩]⟩ := by
  rw [parseRows_cons_ok _ _ _ _
    (parseStep_marker (initPState tIdx0 p0) annotRow (Or.inl hannot))]
  rw [parseRows_cons_ok _ _ _ _
    (parseStep_header (initPState tIdx0 p0)
      ["_time", "_value", "_field", "_measurement", "host"] rfl (by decide)
      (by decide))]
  have e1 : applyHeader (initPState tIdx0 p0)
      ["_time", "_value", "_field", "_measurement", "host"] =
      ⟨false, 0, some 1, some 2, some 3, [("host", 4)], []⟩ := rfl
  rw [e1]
  rw [parseRows_cons_ok _ _ _ _
    (parseStep_result_skip ⟨false, 0, some 1, some 2, some 3, [("host", 4)], []⟩
      rpt rfl hrpt)]
  have s3 : parseStep ⟨false, 0, some 1, some 2, some 3, [("host", 4)], []⟩
      [t1, v1, f1, m1, h1] =
      Except.ok ⟨false, 0, some 1, some 2, some 3, [("host", 4)],
        [⟨m1, f1, coerceValue v1, t1, [("host", h1)]⟩]⟩ := by
    rw [parseStep_data _ _ rfl hd1m hd1r]
    rfl
  rw [parseRows_cons_ok _ _ _ _ s3]
  have s4 : parseStep ⟨false, 0, some 1, some 2, some 3, [("host", 4)],
        [⟨m1, f1, coerceValue v1, t1, [("host", h1)]⟩]⟩
      [t2, v2, f2, m2, h2] =
      Except.ok ⟨false, 0, some 1, some 2, some 3, [("host", 4)],
        [⟨m1, f1, coerceValue v1, t1, [("host", h1)]⟩,
         ⟨m2, f2, coerceValue v2, t2, [("host", h2)]⟩]⟩ := by
    rw [parseStep_data _ _ rfl hd2m hd2r]
    rfl
  rw [parseRows_cons_ok _ _ _ _ s4]
  rfl

/-- Witness for C5 at a concrete input. -/
theorem c5_parser_witness :
    parseRows (initPState 0 ⟨none, none, none⟩)
      [["#datatype", "dateTime", "double", "string", "string", "string"],
       ["_time", "_value", "_field", "_measurement", "host"],
       ["result", "_time", "_value", "_field", "_measurement", "host"],
       ["2024-05-01T00:00:00Z", "42.5", "temp", "cryo", "node1"],
       ["2024-05-01T00:00:10Z", "on", "state", "cryo", "node2"]] =
      Except.ok ⟨false, 0, some 1, some 2, some 3, [("host", 4)],
        [⟨"cryo", "temp", coerceValue "42.5", "2024-05-01T00:00:00Z",
           [("host", "node1")]⟩,
         ⟨"cryo", "state", coerceValue "on", "2024-05-01T00:00:10Z",
           [("host", "node2")]⟩]⟩ :=
  c5_parser_classification 0 ⟨none, none, none⟩ _ _ _ _ _ _ _ _ _ _ _ _
    (by decide) (by decide) (by decide) (by decide) (by decide) (by decide)

/-- The float parse of the literal 42.5 yields the rational 85/2. -/
theorem coerceValue_425 :
    coerceValue "42.5" = PyVal.float (PyFloat.finite (85 / 2)) := by
  have h0 : coerceValue "42.5" =
      PyVal.float (PyFloat.finite
        (((natOfDigits ['4', '2'] : ℚ) + fracVal ['5']) * pow10 0)) := rfl
  rw [h0]
  have h1 : natOfDigits ['4', '2'] = 42 := rfl
  have h2 : fracVal ['5'] = (natOfDigits ['5'] : ℚ) / 10 ^ fracLen ['5'] := rfl
  have h3 : natOfDigits ['5'] = 5 := rfl
  have h4 : fracLen ['5'] = 1 := rfl
  rw [h1, h2, h3, h4]
  norm_num [pow10]

/-- The float parse of the literal on fails, so the raw string is kept. -/
theorem coerceValue_on : coerceValue "on" = PyVal.str "on" := rfl

/-! ## Claim C6 -/

/-- C6: every data row's raw _value cell is coerced by attempting the float
parse and the raw string is kept when the parse fails; in particular the cell
42.5 becomes the number 85/2 and the cell on stays the string on. -/
theorem c6_value_coercion (st : PState) (r : Row) (vi : Nat) (raw : String)
    (p : Point) (hvi : st.value_idx = some vi) (hraw : r[vi]? = some raw)
    (hp : buildPoint st r = Except.ok p) :
    p.value = coerceValue raw ∧
    coerceValue "42.5" = PyVal.float (PyFloat.finite (85 / 2)) ∧
    coerceValue "on" = PyVal.str "on" := by
  refine ⟨?_, coerceValue_425, coerceValue_on⟩
  unfold buildPoint at hp
  rw [hvi] at hp
  simp only [getIdx] at hp
  rw [show getCell r vi = Except.ok raw from by simp [getCell, hraw]] at hp
  repeat' split at hp
  all_goals simp_all
  cases hp
  rfl

/-- The header state used by the C6 witness. -/
def c6St : PState := ⟨false, 0, some 1, some 2, some 3, [], []⟩

/-- Witness for C6 at concrete inputs: a parseable value cell and an
unparseable one. -/
theorem c6_value_witness :
    buildPoint c6St ["2024-05-01T00:00:00Z", "42.5", "temp", "cryo"] =
      Except.ok ⟨"cryo", "temp", PyVal.float (PyFloat.finite (85 / 2)),
        "2024-05-01T00:00:00Z", []⟩ ∧
    PyVal.float (PyFloat.finite (85 / 2)) = coerceValue "42.5" ∧
    buildPoint c6St ["2024-05-01T00:00:10Z", "on", "state", "cryo"] =
      Except.ok ⟨"cryo", "state", PyVal.str "on", "2024-05-01T00:00:10Z", []⟩ ∧
    PyVal.str "on" = coerceValue "on" := by
  have h1 : buildPoint c6St ["2024-05-01T00:00:00Z", "42.5", "temp", "cryo"] =
      Except.ok ⟨"cryo", "temp", PyVal.float (PyFloat.finite (85 / 2)),
        "2024-05-01T00:00:00Z", []⟩ := by
    have h0 : buildPoint c6St ["2024-05-01T00:00:00Z", "42.5", "temp", "cryo"] =
        Except.ok ⟨"cryo", "temp", coerceValue "42.5",
          "2024-05-01T00:00:00Z", []⟩ := rfl
    rw [h0, coerceValue_425]
  have h2 : buildPoint c6St ["2024-05-01T00:00:10Z", "on", "state", "cryo"] =
      Except.ok ⟨"cryo", "state", PyVal.str "on", "2024-05-01T00:00:10Z", []⟩ := by
    have h0 : buildPoint c6St ["2024-05-01T00:00:10Z", "on", "state", "cryo"] =
        Except.ok ⟨"cryo", "state", coerceValue "on",
          "2024-05-01T00:00:10Z", []⟩ := rfl
    rw [h0, coerceValue_on]
  refine ⟨h1, ?_, h2, ?_⟩
  · exact (c6_value_coercion c6St ["2024-05-01T00:00:00Z", "42.5", "temp", "cryo"]
      1 "42.5" ⟨"cryo", "temp", PyVal.float (PyFloat.finite (85 / 2)),
        "2024-05-01T00:00:00Z", []⟩ rfl rfl h1).1
  · exact (c6_value_coercion c6St ["2024-05-01T00:00:10Z", "on", "state", "cryo"]
      1 "on" ⟨"cryo", "state", PyVal.str "on", "2024-05-01T00:00:10Z", []⟩
      rfl rfl h2).1

/-! ## Claim C7 -/

/-- C7 (amended): a data row shorter than the recorded index range raises an
IndexError, and a header that left a required column index unrecorded — the
measurement or the field index, which are only bound by a header branch —
raises a NameError when a data row is built; either error aborts the parse of
the whole stream rather than dropping the row, and through syncBucket it
fails the bucket's cycle with a propagated error before any point batch is
written.  The NameError cases hold only while the index is unbound: a stale
index persisted from an earlier bucket instead builds a corrupt point
silently, which is the counterexample to the original claim. -/
theorem c7_malformed_row_fails_cycle :
    (∀ (ps : PState) (r : Row) (vi : Nat), ps.need_headers = false →
       ¬markerRow r → "result" ∉ r → ps.value_idx = some vi →
       r[vi]? = none → parseStep ps r = Except.error "IndexError") ∧
    (∀ (ps : PState) (r : Row) (vi : Nat) (raw : String),
       ps.need_headers = false → ¬markerRow r → "result" ∉ r →
       ps.value_idx = some vi → r[vi]? = some raw →
       ps.measurement_idx = none →
       parseStep ps r = Except.error "NameError") ∧
    (∀ (ps : PState) (r : Row) (vi : Nat) (raw : String) (mi : Nat)
       (meas : String), ps.need_headers = false → ¬markerRow r →
       "result" ∉ r → ps.value_idx = some vi → r[vi]? = some raw →
       ps.measurement_idx = some mi → r[mi]? = some meas →
       ps.field_idx = none →
       parseStep ps r = Except.error "NameError") ∧
    (∀ (st0 st1 : PState) (pre : List Row) (bad : Row) (rest : List Row)
       (e : String), parseRows st0 pre = Except.ok st1 →
       parseStep st1 bad = Except.error e →
       parseRows st0 (pre ++ bad :: rest) = Except.error e) ∧
    (∀ (caps : Caps) (stg : Settings) (p : PersistIdx) (b : String)
       (tIdx : Nat) (tsOpt : Option String) (rows : List Row) (e : String),
       (resolveWatermark caps.localQuery b).2 = Except.ok (tIdx, tsOpt) →
       caps.remoteQuery
           (remoteQueryStr b (fallback tsOpt stg.recoverDataSinceDate)) =
         Except.ok rows →
       parseRows (initPState tIdx p) rows = Except.error e →
       (syncBucket caps stg p b).2 = Except.error e ∧
       ∀ bkt org pts,
         Eff.writePoints bkt org pts ∉ (syncBucket caps stg p b).1) := by
  refine ⟨?_, ?_, ?_, ?_, ?_⟩
  · intro ps r vi h1 hm h2 hvi hshort
    rw [parseStep_data ps r h1 hm h2]
    unfold buildPoint
    rw [hvi]
    simp [getIdx, getCell, hshort]
  · intro ps r vi raw h1 hm h2 hvi hraw hmi
    rw [parseStep_data ps r h1 hm h2]
    unfold buildPoint
    rw [hvi, hmi]
    simp [getIdx, getCell, hraw]
  · intro ps r vi raw mi meas h1 hm h2 hvi hraw hmi hmeas hfi
    rw [parseStep_data ps r h1 hm h2]
    unfold buildPoint
    rw [hvi, hmi, hfi]
    simp [getIdx, getCell, hraw, hmeas]
  · intro st0 st1 pre bad rest e hpre hbad
    induction pre generalizing st0 with
    | nil =>
      simp only [parseRows] at hpre
      cases hpre
      simp [parseRows, hbad]
    | cons r rs ih =>
      rw [List.cons_append]
      simp only [parseRows] at hpre ⊢
      cases hstep : parseStep st0 r with
      | error er =>
        rw [hstep] at hpre
        simp at hpre
      | ok st2 =>
        simp only [hstep] at hpre ⊢
        exact ih st2 hpre
  · intro caps stg p b tIdx tsOpt rows e hwm hrq hparse
    constructor
    · simp [syncBucket, hwm, hrq, hparse]
    · intro bkt org pts hmem
      simp [syncBucket, hwm, hrq, hparse] at hmem
      obtain ⟨s, hs⟩ :=
        resolveLoop_effects caps.localQuery b fluxTimes false 0 none _ hmem
      simp at hs

/-- Capabilities for the C7 witness: the remote response holds a header and a
data row shorter than the recorded value index. -/
def c7Caps : Caps :=
  ⟨fun _ => true, fun _ => [],
   fun _ => Except.ok
     [["_time", "_value", "_field", "_measurement"], ["2024-05-01T00:00:00Z"]],
   fun _ _ => Except.ok ()⟩

/-- Settings for the C7 witness. -/
def c7Settings : Settings :=
  ⟨"1.2.3.4:8086", "org", ["B"], "00:05:00", "2020-01-01T00:00:00Z"⟩

/-- Witness for the amended C7 at concrete inputs: a short data row fails the
bucket's cycle with an IndexError and no write effect, and a first-bucket
header that never recorded the measurement column makes the next data row
raise a NameError. -/
theorem c7_malformed_row_witness :
    (syncBucket c7Caps c7Settings ⟨none, none, none⟩ "B").2 =
      Except.error "IndexError" ∧
    (∀ bkt org pts, Eff.writePoints bkt org pts ∉
       (syncBucket c7Caps c7Settings ⟨none, none, none⟩ "B").1) ∧
    parseStep ⟨false, 0, some 1, some 2, none, [("col", 3)], []⟩
      ["t1", "on", "f1", "g1"] = Except.error "NameError" := by
  obtain ⟨h1, h2⟩ := c7_malformed_row_fails_cycle.2.2.2.2 c7Caps c7Settings
    ⟨none, none, none⟩ "B" 0 none _ "IndexError" rfl rfl rfl
  refine ⟨h1, h2, ?_⟩
  exact c7_malformed_row_fails_cycle.2.1
    ⟨false, 0, some 1, some 2, none, [("col", 3)], []⟩
    ["t1", "on", "f1", "g1"] 1 "on" rfl (by decide) (by decide) rfl rfl rfl

/-- Capabilities for the C7 counterexample: bucket A's response carries a full
header, bucket B's header lacks the measurement column. -/
def c7cxCaps : Caps :=
  ⟨fun _ => true, fun _ => [],
   fun q =>
     if q = remoteQueryStr "A" "2020-01-01T00:00:00Z" then
       Except.ok [["_time", "_value", "_field", "_measurement"],
                  ["t0", "on", "f0", "m0"]]
     else
       Except.ok [["_time", "_value", "_field", "col"],
                  ["t1", "on", "f1", "g1"]],
   fun _ _ => Except.ok ()⟩

/-- Settings for the C7 counterexample. -/
def c7cxSettings : Settings :=
  ⟨"1.2.3.4:8086", "org", ["A", "B"], "00:05:00", "2020-01-01T00:00:00Z"⟩

/-- C7 counterexample: bucket B's rows lack the required measurement column,
yet the cycle completes without any propagated error and writes a corrupt
point whose measurement is read from bucket A's stale measurement index — the
cell of the col tag column — refuting the claim that a row missing a required
column value always fails the cycle and never produces a corrupt point. -/
theorem c7_stale_index_counterexample :
    (syncBuckets c7cxCaps c7cxSettings ["A", "B"] ⟨none, none, none⟩).2 =
      Except.ok () ∧
    Eff.writePoints "B" "org"
        [⟨"g1", "f1", PyVal.str "on", "t1", [("col", "g1")]⟩] ∈
      (syncBuckets c7cxCaps c7cxSettings ["A", "B"] ⟨none, none, none⟩).1 := by
  constructor
  · rfl
  · decide

/-! ## Claim C2 -/

/-- C2: a non-KeyboardInterrupt exception raised while syncing a bucket aborts
the remaining buckets of the cycle (their sync never starts), is caught at the
cycle boundary where main_loop prints the traceback, logs the failure
description at ERROR level, waits one refresh interval and continues with
another cycle; the loop only returns on a KeyboardInterrupt, so no cycle
failure terminates the process. -/
theorem c2_cycle_fault_isolation (caps : Caps) (stg : Settings)
    (p : PersistIdx) (b : String) (m : String)
    (h : (syncBucket caps stg p b).2 = Except.error m) :
    (∀ post : List String,
       syncBuckets caps stg (b :: post) p =
         ((syncBucket caps stg p b).1, Except.error m)) ∧
    mainLoopReact stg (CycleOutcome.err m) =
      ([Eff.printE m, Eff.logE "ERROR" ("Python error occured: " ++ m)] ++
         waitEffs stg, true) ∧
    (∀ outs : List CycleOutcome, CycleOutcome.keyboard ∉ outs →
       (mainLoopRun stg outs).2 = false) := by
  refine ⟨?_, rfl, ?_⟩
  · intro post
    simp [syncBuckets, h]
  · intro outs hk
    induction outs with
    | nil => rfl
    | cons o os ih =>
      have hos : CycleOutcome.keyboard ∉ os :=
        fun he => hk (List.mem_cons_of_mem _ he)
      cases o with
      | ok => simp [mainLoopRun, mainLoopReact, ih hos]
      | keyboard => exact absurd (List.mem_cons_self _ _) hk
      | err e => simp [mainLoopRun, mainLoopReact, ih hos]

/-- Capabilities for the C2 witness: the local write raises. -/
def c2Caps : Caps :=
  ⟨fun _ => true, fun _ => [], fun _ => Except.ok [],
   fun _ _ => Except.error "boom"⟩

/-- Settings for the C2 witness. -/
def c2Settings : Settings :=
  ⟨"1.2.3.4:8086", "org", ["B", "C"], "00:05:00", "2020-01-01T00:00:00Z"⟩

/-- Witness for C2 at a concrete input: the first bucket's write fails, the
second bucket is never attempted, and a loop fed only that failure does not
return. -/
theorem c2_cycle_fault_witness :
    syncBuckets c2Caps c2Settings ["B", "C"] ⟨none, none, none⟩ =
      ((syncBucket c2Caps c2Settings ⟨none, none, none⟩ "B").1,
       Except.error "boom") ∧
    (mainLoopRun c2Settings [CycleOutcome.err "boom"]).2 = false := by
  have h : (syncBucket c2Caps c2Settings ⟨none, none, none⟩ "B").2 =
      Except.error "boom" := rfl
  have t := c2_cycle_fault_isolation c2Caps c2Settings ⟨none, none, none⟩ "B"
    "boom" h
  exact ⟨t.1 ["C"], t.2.2 [CycleOutcome.err "boom"] (by decide)⟩

/-! ## Claim C9 -/

/-- Capabilities for evaluating perform_mirror at the C9 failing input. -/
def c9Caps : Caps :=
  ⟨fun _ => false, fun _ => [], fun _ => Except.ok [], fun _ _ => Except.ok ()⟩

/-- Settings for the C9 failing input: a remote address with no port suffix. -/
def c9Settings : Settings :=
  ⟨"192.168.1.5", "org", [], "00:05:00", "2020-01-01T00:00:00Z"⟩

/-- C9 (code bug): the ping code slices the configured remote address at the
result of str.find of the colon, which is -1 when no colon is present, so a
host without a port suffix is pinged with its final character missing
("192.168.1.5" becomes "192.168.1.") instead of whole; only a plain host:port
input has its port stripped, and a URL such as http://host:port is sliced at
the scheme colon down to "http". -/
theorem c9_ping_target_bug :
    pingTarget "192.168.1.5" = "192.168.1." ∧
    pingTarget "192.168.1.5:8086" = "192.168.1.5" ∧
    pingTarget "http://192.168.1.5:8086" = "http" ∧
    (performMirror c9Caps c9Settings).1 =
      [Eff.pingE "192.168.1.",
       Eff.logE "DEBUG" "Unable to ping the remote database."] :=
  ⟨rfl, rfl, rfl, rfl⟩

end Mirror
